import Mathlib

/-!
A shallow embedding of the marshal/unmarshal core of
src/marklogic/models/database/__init__.py (the Database class).

Python values appearing in wire documents are modelled by the inductive
type Value; a Python dict is an association list in insertion order
(Python 3 dicts preserve insertion order, and assignment to an existing
key keeps its position).  In-memory entity objects (index definitions,
blackout windows, scheduled backups, field definitions) are modelled by
the Value.entity constructor carrying the variant tag and the entity's
own config record.  Exceptions are modelled by the Except monad with the
error type PyErr; in-place mutation of the caller's dict by
Database.unmarshal is modelled by explicit state passing (the function
returns the caller's dict as it stands after the call, on success and on
failure alike).
-/

set_option maxRecDepth 4096

namespace MLDB

/-- Errors raised by the embedded Python code.  keyError models a dict
KeyError; typeError models TypeError (membership test or subscript on a
value of the wrong type); attributeError models AttributeError;
nameError models NameError (reference to an undefined variable);
apiError models UnexpectedManagementAPIResponse; validationError models
ValidationError; duplicateKey and typeMismatch model the spec's
DuplicateKey and TypeMismatch failures of the PropertyList layer. -/
inductive PyErr where
  | keyError (k : String)
  | typeError
  | attributeError (m : String)
  | nameError (m : String)
  | apiError (m : String)
  | validationError (m : String)
  | duplicateKey (m : String)
  | typeMismatch (m : String)
deriving DecidableEq, Repr

/-- True exactly for the error the code raises when a variant record
matches no discriminator rule (UnexpectedManagementAPIResponse, the
spec's UnrecognizedVariant). -/
def PyErr.isUnrecognizedVariant : PyErr → Bool
  | .apiError _ => true
  | _ => false

/-- Python values of the wire documents and of the decoded in-memory
configuration.  Value.entity tag fields models a typed sub-entity
object (its tag names the variant; fields models the entity's own
config dict of the fields that were set — the entity classes live in
files not under src/, so the exact stored fields are modelled from the
spec, section 4.3: a record containing exactly the fields that were
set). -/
inductive Value where
  | null
  | str (s : String)
  | boolV (b : Bool)
  | intV (n : Int)
  | arr (elems : List Value)
  | obj (entries : List (String × Value))
  | entity (tag : String) (fields : List (String × Value))
deriving Repr

/-- A Python dict: association list in insertion order. -/
abbrev Config := List (String × Value)

/-- Python equality test of a value against a string literal
(v == "lit": true only for an equal string, false for any other
type, never an error). -/
def Value.eqStr : Value → String → Bool
  | .str s, t => s == t
  | _, _ => false

/-- Is the value a decoded entity object? -/
def Value.isEntityV : Value → Bool
  | .entity _ _ => true
  | _ => false

/-- Dict lookup (first match in insertion order). -/
def lookupK : Config → String → Option Value
  | [], _ => none
  | (k', v') :: rest, k => if k' == k then some v' else lookupK rest k

/-- Dict assignment d[k] = v: replaces the first entry with key k in
place, appends at the end when the key is absent. -/
def setKey : Config → String → Value → Config
  | [], k, v => [(k, v)]
  | (k', v') :: rest, k, v =>
      if k' == k then (k, v) :: rest else (k', v') :: setKey rest k v

/-- Python subscript r[k]: KeyError when the key is absent from a dict,
TypeError when the value is not a dict. -/
def getK (r : Value) (k : String) : Except PyErr Value :=
  match r with
  | .obj l =>
      match lookupK l k with
      | some v => .ok v
      | none => .error (.keyError k)
  | _ => .error .typeError

/-- Python membership test (k in v): key membership for a dict,
element equality for a list, substring for a string, TypeError for
None/bool/int. -/
def memTest (k : String) : Value → Except PyErr Bool
  | .null => .error .typeError
  | .boolV _ => .error .typeError
  | .intV _ => .error .typeError
  | .str s => .ok (s.toList.tails.any (fun t => k.toList.isPrefixOf t))
  | .arr l => .ok (l.any (fun v => v.eqStr k))
  | .obj l => .ok (lookupK l k).isSome
  | .entity _ _ => .error .typeError

/-- Python iteration (for x in v): the elements of a list, the keys of
a dict, the one-character strings of a string, TypeError otherwise. -/
def iterElems : Value → Except PyErr (List Value)
  | .arr l => .ok l
  | .obj l => .ok (l.map (fun kv => Value.str kv.1))
  | .str s => .ok (s.toList.map (fun c => Value.str (String.mk [c])))
  | _ => .error .typeError

/-- Monadic map over Except, defined by plain structural recursion so
that proofs can unfold it directly. -/
def mapME (f : α → Except PyErr β) : List α → Except PyErr (List β)
  | [] => .ok []
  | a :: as => do
      let b ← f a
      let bs ← mapME f as
      .ok (b :: bs)

/-- Decode of one raw record of the range-element-index slot
(src lines 3437-3446): the six constructor arguments are looked up in
the order the Python call evaluates them; range-value-positions is
compared against the string "true". -/
def decodeElementRangeIndex (r : Value) : Except PyErr (String × Config) := do
  let st ← getK r "scalar-type"
  let ns ← getK r "namespace-uri"
  let ln ← getK r "localname"
  let col ← getK r "collation"
  let rvp ← getK r "range-value-positions"
  let iv ← getK r "invalid-values"
  pure ("element-range-index",
    [("scalar-type", st), ("namespace-uri", ns), ("localname", ln),
     ("collation", col), ("range-value-positions", .boolV (rvp.eqStr "true")),
     ("invalid-values", iv)])

/-- Decode of one raw record of the range-field-index slot
(src lines 3449-3457). -/
def decodeFieldRangeIndex (r : Value) : Except PyErr (String × Config) := do
  let st ← getK r "scalar-type"
  let fn ← getK r "field-name"
  let col ← getK r "collation"
  let rvp ← getK r "range-value-positions"
  let iv ← getK r "invalid-values"
  pure ("field-range-index",
    [("scalar-type", st), ("field-name", fn), ("collation", col),
     ("range-value-positions", .boolV (rvp.eqStr "true")),
     ("invalid-values", iv)])

/-- Decode of one raw record of the range-element-attribute-index slot
(src lines 3460-3471). -/
def decodeAttributeRangeIndex (r : Value) : Except PyErr (String × Config) := do
  let st ← getK r "scalar-type"
  let pns ← getK r "parent-namespace-uri"
  let pln ← getK r "parent-localname"
  let ns ← getK r "namespace-uri"
  let ln ← getK r "localname"
  let col ← getK r "collation"
  let rvp ← getK r "range-value-positions"
  let iv ← getK r "invalid-values"
  pure ("attribute-range-index",
    [("scalar-type", st), ("parent-namespace-uri", pns),
     ("parent-localname", pln), ("namespace-uri", ns), ("localname", ln),
     ("collation", col), ("range-value-positions", .boolV (rvp.eqStr "true")),
     ("invalid-values", iv)])

/-- Decode of one raw record of the range-path-index slot
(src lines 3474-3482). -/
def decodePathRangeIndex (r : Value) : Except PyErr (String × Config) := do
  let st ← getK r "scalar-type"
  let pe ← getK r "path-expression"
  let col ← getK r "collation"
  let rvp ← getK r "range-value-positions"
  let iv ← getK r "invalid-values"
  pure ("path-range-index",
    [("scalar-type", st), ("path-expression", pe), ("collation", col),
     ("range-value-positions", .boolV (rvp.eqStr "true")),
     ("invalid-values", iv)])

/-- Decode of one raw record of the geospatial-element-index slot
(src lines 3485-3494). -/
def decodeGeospatialElementIndex (r : Value) : Except PyErr (String × Config) := do
  let ns ← getK r "namespace-uri"
  let ln ← getK r "localname"
  let cs ← getK r "coordinate-system"
  let pf ← getK r "point-format"
  let rvp ← getK r "range-value-positions"
  let iv ← getK r "invalid-values"
  pure ("geospatial-element-index",
    [("namespace-uri", ns), ("localname", ln), ("coordinate-system", cs),
     ("point-format", pf),
     ("range-value-positions", .boolV (rvp.eqStr "true")),
     ("invalid-values", iv)])

/-- Decode of one raw record of the geospatial-path-index slot
(src lines 3497-3505). -/
def decodeGeospatialPathIndex (r : Value) : Except PyErr (String × Config) := do
  let pe ← getK r "path-expression"
  let cs ← getK r "coordinate-system"
  let pf ← getK r "point-format"
  let rvp ← getK r "range-value-positions"
  let iv ← getK r "invalid-values"
  pure ("geospatial-path-index",
    [("path-expression", pe), ("coordinate-system", cs),
     ("point-format", pf),
     ("range-value-positions", .boolV (rvp.eqStr "true")),
     ("invalid-values", iv)])

/-- Decode of one raw record of the geospatial-element-child-index slot
(src lines 3508-3520). -/
def decodeGeospatialElementChildIndex (r : Value) : Except PyErr (String × Config) := do
  let pns ← getK r "parent-namespace-uri"
  let pln ← getK r "parent-localname"
  let ns ← getK r "namespace-uri"
  let ln ← getK r "localname"
  let cs ← getK r "coordinate-system"
  let pf ← getK r "point-format"
  let rvp ← getK r "range-value-positions"
  let iv ← getK r "invalid-values"
  pure ("geospatial-element-child-index",
    [("parent-namespace-uri", pns), ("parent-localname", pln),
     ("namespace-uri", ns), ("localname", ln), ("coordinate-system", cs),
     ("point-format", pf),
     ("range-value-positions", .boolV (rvp.eqStr "true")),
     ("invalid-values", iv)])

/-- Decode of one raw record of the geospatial-element-pair-index slot
(src lines 3523-3536). -/
def decodeGeospatialElementPairIndex (r : Value) : Except PyErr (String × Config) := do
  let pns ← getK r "parent-namespace-uri"
  let pln ← getK r "parent-localname"
  let lons ← getK r "longitude-namespace-uri"
  let lonl ← getK r "longitude-localname"
  let lats ← getK r "latitude-namespace-uri"
  let latl ← getK r "latitude-localname"
  let cs ← getK r "coordinate-system"
  let rvp ← getK r "range-value-positions"
  let iv ← getK r "invalid-values"
  pure ("geospatial-element-pair-index",
    [("parent-namespace-uri", pns), ("parent-localname", pln),
     ("longitude-namespace-uri", lons), ("longitude-localname", lonl),
     ("latitude-namespace-uri", lats), ("latitude-localname", latl),
     ("coordinate-system", cs),
     ("range-value-positions", .boolV (rvp.eqStr "true")),
     ("invalid-values", iv)])

/-- Decode of one raw record of the geospatial-element-attribute-pair-index
slot (src lines 3539-3552). -/
def decodeGeospatialElementAttributePairIndex (r : Value) :
    Except PyErr (String × Config) := do
  let pns ← getK r "parent-namespace-uri"
  let pln ← getK r "parent-localname"
  let lons ← getK r "longitude-namespace-uri"
  let lonl ← getK r "longitude-localname"
  let lats ← getK r "latitude-namespace-uri"
  let latl ← getK r "latitude-localname"
  let cs ← getK r "coordinate-system"
  let rvp ← getK r "range-value-positions"
  let iv ← getK r "invalid-values"
  pure ("geospatial-element-attribute-pair-index",
    [("parent-namespace-uri", pns), ("parent-localname", pln),
     ("longitude-namespace-uri", lons), ("longitude-localname", lonl),
     ("latitude-namespace-uri", lats), ("latitude-localname", latl),
     ("coordinate-system", cs),
     ("range-value-positions", .boolV (rvp.eqStr "true")),
     ("invalid-values", iv)])

/-- Decode of one raw fragment-root record (src lines 3555-3559). -/
def decodeFragmentRoot (r : Value) : Except PyErr (String × Config) := do
  let ns ← getK r "namespace-uri"
  let ln ← getK r "localname"
  pure ("fragment-root", [("namespace-uri", ns), ("localname", ln)])

/-- Decode of one raw fragment-parent record (src lines 3562-3566). -/
def decodeFragmentParent (r : Value) : Except PyErr (String × Config) := do
  let ns ← getK r "namespace-uri"
  let ln ← getK r "localname"
  pure ("fragment-parent", [("namespace-uri", ns), ("localname", ln)])

/-- Decode of one raw merge-blackout record (src lines 3570-3612): an
ordered chain of structural probes.  The Python elif chain tests, in
order: (recurring, period is None), (recurring, "duration" in period),
(recurring, "end-time" in period), (once, "end-time" in period),
(once, "duration" in period); each probe's second conjunct is evaluated
only when the blackout-type tag matches (Python "and" short-circuits),
so an unknown tag never touches the period, while a matching tag with a
missing period raises KeyError and a matching tag with a null period
reaching a membership probe raises TypeError. -/
def decodeMergeBlackout (r : Value) : Except PyErr (String × Config) := do
  let tv ← getK r "blackout-type"
  if tv.eqStr "recurring" then do
    let p ← getK r "period"
    match p with
    | .null => do
        let pr ← getK r "merge-priority"
        let li ← getK r "limit"
        let dy ← getK r "day"
        pure ("merge-blackout-recurring-all-day",
          [("blackout-type", .str "recurring"), ("merge-priority", pr),
           ("limit", li), ("day", dy), ("period", .null)])
    | _ => do
        let hasDur ← memTest "duration" p
        if hasDur then do
          let pr ← getK r "merge-priority"
          let li ← getK r "limit"
          let dy ← getK r "day"
          let st ← getK p "start-time"
          let du ← getK p "duration"
          pure ("merge-blackout-recurring-duration",
            [("blackout-type", .str "recurring"), ("merge-priority", pr),
             ("limit", li), ("day", dy), ("start-time", st),
             ("duration", du)])
        else do
          let hasEnd ← memTest "end-time" p
          if hasEnd then do
            let pr ← getK r "merge-priority"
            let li ← getK r "limit"
            let dy ← getK r "day"
            let st ← getK p "start-time"
            let et ← getK p "end-time"
            pure ("merge-blackout-recurring-start-end",
              [("blackout-type", .str "recurring"), ("merge-priority", pr),
               ("limit", li), ("day", dy), ("start-time", st),
               ("end-time", et)])
          else
            .error (.apiError "Unparseable merge blackout period")
  else if tv.eqStr "once" then do
    let p ← getK r "period"
    let hasEnd ← memTest "end-time" p
    if hasEnd then do
      let pr ← getK r "merge-priority"
      let li ← getK r "limit"
      let sd ← getK p "start-date"
      let st ← getK p "start-time"
      let ed ← getK p "end-date"
      let et ← getK p "end-time"
      pure ("merge-blackout-one-time-start-end",
        [("blackout-type", .str "once"), ("merge-priority", pr),
         ("limit", li), ("start-date", sd), ("start-time", st),
         ("end-date", ed), ("end-time", et)])
    else do
      let hasDur ← memTest "duration" p
      if hasDur then do
        let pr ← getK r "merge-priority"
        let li ← getK r "limit"
        let sd ← getK p "start-date"
        let st ← getK p "start-time"
        let du ← getK p "duration"
        pure ("merge-blackout-one-time-duration",
          [("blackout-type", .str "once"), ("merge-priority", pr),
           ("limit", li), ("start-date", sd), ("start-time", st),
           ("duration", du)])
      else
        .error (.apiError "Unparseable merge blackout period")
  else
    .error (.apiError "Unparseable merge blackout period")

/-- Decode of one raw database-backup record (src lines 3619-3713): the
optional incremental key is read first; the backup-type tag then
selects one of six constructors whose arguments are looked up in call
order; finally the backup-id of the raw record is copied onto the new
entity's config (src line 3712), so a record of a known type without a
backup-id raises KeyError. -/
def decodeDatabaseBackup (r : Value) : Except PyErr (String × Config) := do
  let hasInc ← memTest "incremental" r
  let inc ← if hasInc then getK r "incremental" else pure Value.null
  let tv ← getK r "backup-type"
  let core ←
    if tv.eqStr "minutely" then do
      let dir ← getK r "backup-directory"
      let per ← getK r "backup-period"
      let mx ← getK r "max-backups"
      let sec ← getK r "backup-security-database"
      let sch ← getK r "backup-schemas-database"
      let tri ← getK r "backup-triggers-database"
      let rep ← getK r "include-replicas"
      let ja ← getK r "journal-archiving"
      let jp ← getK r "journal-archive-path"
      let jl ← getK r "journal-archive-lag-limit"
      pure ("backup-minutely",
        [("backup-type", Value.str "minutely"), ("backup-directory", dir),
         ("backup-period", per), ("max-backups", mx),
         ("backup-security-database", sec), ("backup-schemas-database", sch),
         ("backup-triggers-database", tri), ("include-replicas", rep),
         ("incremental", inc), ("journal-archiving", ja),
         ("journal-archive-path", jp),
         ("journal-archive-lag-limit", jl)])
    else if tv.eqStr "hourly" then do
      let dir ← getK r "backup-directory"
      let per ← getK r "backup-period"
      let st ← getK r "backup-start-time"
      let mx ← getK r "max-backups"
      let sec ← getK r "backup-security-database"
      let sch ← getK r "backup-schemas-database"
      let tri ← getK r "backup-triggers-database"
      let rep ← getK r "include-replicas"
      let ja ← getK r "journal-archiving"
      let jp ← getK r "journal-archive-path"
      let jl ← getK r "journal-archive-lag-limit"
      pure ("backup-hourly",
        [("backup-type", Value.str "hourly"), ("backup-directory", dir),
         ("backup-period", per), ("backup-start-time", st),
         ("max-backups", mx), ("backup-security-database", sec),
         ("backup-schemas-database", sch), ("backup-triggers-database", tri),
         ("include-replicas", rep), ("incremental", inc),
         ("journal-archiving", ja), ("journal-archive-path", jp),
         ("journal-archive-lag-limit", jl)])
    else if tv.eqStr "daily" then do
      let dir ← getK r "backup-directory"
      let per ← getK r "backup-period"
      let st ← getK r "backup-start-time"
      let mx ← getK r "max-backups"
      let sec ← getK r "backup-security-database"
      let sch ← getK r "backup-schemas-database"
      let tri ← getK r "backup-triggers-database"
      let rep ← getK r "include-replicas"
      let ja ← getK r "journal-archiving"
      let jp ← getK r "journal-archive-path"
      let jl ← getK r "journal-archive-lag-limit"
      pure ("backup-daily",
        [("backup-type", Value.str "daily"), ("backup-directory", dir),
         ("backup-period", per), ("backup-start-time", st),
         ("max-backups", mx), ("backup-security-database", sec),
         ("backup-schemas-database", sch), ("backup-triggers-database", tri),
         ("include-replicas", rep), ("incremental", inc),
         ("journal-archiving", ja), ("journal-archive-path", jp),
         ("journal-archive-lag-limit", jl)])
    else if tv.eqStr "weekly" then do
      let dir ← getK r "backup-directory"
      let per ← getK r "backup-period"
      let bd ← getK r "backup-day"
      let st ← getK r "backup-start-time"
      let mx ← getK r "max-backups"
      let sec ← getK r "backup-security-database"
      let sch ← getK r "backup-schemas-database"
      let tri ← getK r "backup-triggers-database"
      let rep ← getK r "include-replicas"
      let ja ← getK r "journal-archiving"
      let jp ← getK r "journal-archive-path"
      let jl ← getK r "journal-archive-lag-limit"
      pure ("backup-weekly",
        [("backup-type", Value.str "weekly"), ("backup-directory", dir),
         ("backup-period", per), ("backup-day", bd),
         ("backup-start-time", st), ("max-backups", mx),
         ("backup-security-database", sec), ("backup-schemas-database", sch),
         ("backup-triggers-database", tri), ("include-replicas", rep),
         ("incremental", inc), ("journal-archiving", ja),
         ("journal-archive-path", jp), ("journal-archive-lag-limit", jl)])
    else if tv.eqStr "monthly" then do
      let dir ← getK r "backup-directory"
      let per ← getK r "backup-period"
      let md ← getK r "backup-month-day"
      let st ← getK r "backup-start-time"
      let mx ← getK r "max-backups"
      let sec ← getK r "backup-security-database"
      let sch ← getK r "backup-schemas-database"
      let tri ← getK r "backup-triggers-database"
      let rep ← getK r "include-replicas"
      let ja ← getK r "journal-archiving"
      let jp ← getK r "journal-archive-path"
      let jl ← getK r "journal-archive-lag-limit"
      pure ("backup-monthly",
        [("backup-type", Value.str "monthly"), ("backup-directory", dir),
         ("backup-period", per), ("backup-month-day", md),
         ("backup-start-time", st), ("max-backups", mx),
         ("backup-security-database", sec), ("backup-schemas-database", sch),
         ("backup-triggers-database", tri), ("include-replicas", rep),
         ("incremental", inc), ("journal-archiving", ja),
         ("journal-archive-path", jp), ("journal-archive-lag-limit", jl)])
    else if tv.eqStr "once" then do
      let dir ← getK r "backup-directory"
      let sd ← getK r "backup-start-date"
      let st ← getK r "backup-start-time"
      let mx ← getK r "max-backups"
      let sec ← getK r "backup-security-database"
      let sch ← getK r "backup-schemas-database"
      let tri ← getK r "backup-triggers-database"
      let rep ← getK r "include-replicas"
      let ja ← getK r "journal-archiving"
      let jp ← getK r "journal-archive-path"
      let jl ← getK r "journal-archive-lag-limit"
      pure ("backup-once",
        [("backup-type", Value.str "once"), ("backup-directory", dir),
         ("backup-start-date", sd), ("backup-start-time", st),
         ("max-backups", mx), ("backup-security-database", sec),
         ("backup-schemas-database", sch), ("backup-triggers-database", tri),
         ("include-replicas", rep), ("incremental", inc),
         ("journal-archiving", ja), ("journal-archive-path", jp),
         ("journal-archive-lag-limit", jl)])
    else
      .error (.apiError "Unparseable backup")
  let bid ← getK r "backup-id"
  pure (core.1, setKey core.2 "backup-id" bid)

/-- Decode of one raw path-namespace record (src lines 3717-3722). -/
def decodePathNamespace (r : Value) : Except PyErr (String × Config) := do
  let pf ← getK r "prefix"
  let ns ← getK r "namespace-uri"
  pure ("path-namespace", [("prefix", pf), ("namespace-uri", ns)])

/-- Decode of one raw element-word-lexicon record (src lines 3726-3732). -/
def decodeElementWordLexicon (r : Value) : Except PyErr (String × Config) := do
  let ns ← getK r "namespace-uri"
  let ln ← getK r "localname"
  let col ← getK r "collation"
  pure ("element-word-lexicon",
    [("namespace-uri", ns), ("localname", ln), ("collation", col)])

/-- Decode of one raw element-attribute-word-lexicon record
(src lines 3736-3744). -/
def decodeAttributeWordLexicon (r : Value) : Except PyErr (String × Config) := do
  let pns ← getK r "parent-namespace-uri"
  let pln ← getK r "parent-localname"
  let ns ← getK r "namespace-uri"
  let ln ← getK r "localname"
  let col ← getK r "collation"
  pure ("attribute-word-lexicon",
    [("parent-namespace-uri", pns), ("parent-localname", pln),
     ("namespace-uri", ns), ("localname", ln), ("collation", col)])

/-- Decode of one raw element-word-query-through record
(src lines 3748-3753). -/
def decodeElementWordQueryThrough (r : Value) : Except PyErr (String × Config) := do
  let ns ← getK r "namespace-uri"
  let ln ← getK r "localname"
  pure ("element-word-query-through",
    [("namespace-uri", ns), ("localname", ln)])

/-- Decode of one raw phrase-through record (src lines 3757-3762). -/
def decodePhraseThrough (r : Value) : Except PyErr (String × Config) := do
  let ns ← getK r "namespace-uri"
  let ln ← getK r "localname"
  pure ("phrase-through", [("namespace-uri", ns), ("localname", ln)])

/-- Decode of one raw phrase-around record (src lines 3766-3771). -/
def decodePhraseAround (r : Value) : Except PyErr (String × Config) := do
  let ns ← getK r "namespace-uri"
  let ln ← getK r "localname"
  pure ("phrase-around", [("namespace-uri", ns), ("localname", ln)])

/-- Decode of one raw default-ruleset record (src lines 3775-3779). -/
def decodeRuleSet (r : Value) : Except PyErr (String × Config) := do
  let loc ← getK r "location"
  pure ("rule-set", [("location", loc)])

/-- One entry of a field-path collection (src lines 3788-3790): the
"path" and "weight" keys are required. -/
def decodeFieldPath (p : Value) : Except PyErr Value := do
  let pp ← getK p "path"
  let wt ← getK p "weight"
  pure (.obj [("path", pp), ("weight", wt)])

/-- Decode of one raw field record (src lines 3784-3801): the
field-name is read first (KeyError when missing, for every variant);
presence of "field-path" selects PathField regardless of the name;
otherwise an empty field-name selects the WordQuery sentinel and any
other name a RootField.  Each constructed entity then absorbs the raw
record via its own unmarshal (src line 3800); the field entity classes
live outside src/, so, modelled from the spec (section 4.3: a record
containing exactly the fields that were set), the entity keeps the raw
record as its config. -/
def decodeFieldRecord (r : Value) : Except PyErr (String × Config) :=
  match r with
  | .obj l => do
      let _ ← getK r "field-name"
      let name := (lookupK l "field-name").getD .null
      let hasPath ← memTest "field-path" r
      if hasPath then do
        let fpv ← getK r "field-path"
        let items ← iterElems fpv
        let _ ← mapME decodeFieldPath items
        pure ("path-field", l)
      else
        if name.eqStr "" then
          pure ("word-query", l)
        else
          pure ("root-field", l)
  | _ => .error .typeError

/-- The tag and config of the entity decoded from one raw record of the
given slot; the dispatch on the slot name mirrors which decode loop of
src lines 3436-3802 the record sits in. -/
def decodeRecordCore (slot : String) (r : Value) :
    Except PyErr (String × Config) :=
  if slot == "range-element-index" then decodeElementRangeIndex r
  else if slot == "range-field-index" then decodeFieldRangeIndex r
  else if slot == "range-element-attribute-index" then
    decodeAttributeRangeIndex r
  else if slot == "range-path-index" then decodePathRangeIndex r
  else if slot == "geospatial-element-index" then
    decodeGeospatialElementIndex r
  else if slot == "geospatial-path-index" then decodeGeospatialPathIndex r
  else if slot == "geospatial-element-child-index" then
    decodeGeospatialElementChildIndex r
  else if slot == "geospatial-element-pair-index" then
    decodeGeospatialElementPairIndex r
  else if slot == "geospatial-element-attribute-pair-index" then
    decodeGeospatialElementAttributePairIndex r
  else if slot == "fragment-root" then decodeFragmentRoot r
  else if slot == "fragment-parent" then decodeFragmentParent r
  else if slot == "merge-blackout" then decodeMergeBlackout r
  else if slot == "database-backup" then decodeDatabaseBackup r
  else if slot == "path-namespace" then decodePathNamespace r
  else if slot == "element-word-lexicon" then decodeElementWordLexicon r
  else if slot == "element-attribute-word-lexicon" then
    decodeAttributeWordLexicon r
  else if slot == "element-word-query-through" then
    decodeElementWordQueryThrough r
  else if slot == "phrase-through" then decodePhraseThrough r
  else if slot == "phrase-around" then decodePhraseAround r
  else if slot == "default-ruleset" then decodeRuleSet r
  else if slot == "field" then decodeFieldRecord r
  else .error .typeError

/-- The decoder the unmarshal loop applies to one raw record of the
given slot: the decoded entity object. -/
def decodeRecord (slot : String) (r : Value) : Except PyErr Value :=
  (decodeRecordCore slot r).map (fun tf => .entity tf.1 tf.2)

/-- The array-valued slots Database.unmarshal converts, in the order the
source processes them (src lines 3436-3802). -/
def slotKeys : List String :=
  ["range-element-index", "range-field-index",
   "range-element-attribute-index", "range-path-index",
   "geospatial-element-index", "geospatial-path-index",
   "geospatial-element-child-index", "geospatial-element-pair-index",
   "geospatial-element-attribute-pair-index", "fragment-root",
   "fragment-parent", "merge-blackout", "database-backup",
   "path-namespace", "element-word-lexicon",
   "element-attribute-word-lexicon", "element-word-query-through",
   "phrase-through", "phrase-around", "default-ruleset", "field"]

/-- One slot of the unmarshal loop: when the key is present, iterate the
raw records, decode each, and assign the list of decoded entities to the
key; when the key is absent, assign the empty list.  On a decode failure
the assignment does not happen (in the source the assignment follows the
loop), so the dict is returned as it stood on entry to this slot. -/
def processSlot (cfg : Config) (k : String) : Except PyErr Config :=
  match lookupK cfg k with
  | none => .ok (setKey cfg k (.arr []))
  | some v => do
      let rs ← iterElems v
      let es ← mapME (decodeRecord k) rs
      pure (setKey cfg k (.arr es))

/-- The slot loop of Database.unmarshal: processes the slots in source
order, stopping at the first failure; the returned Config is the
caller's dict as the call leaves it (the source stores the caller's
dict itself, not a copy, as the new Database's config, so every slot
assignment mutates the caller's dict in place). -/
def unmarshalGo : List String → Config → Option PyErr × Config
  | [], cfg => (none, cfg)
  | k :: ks, cfg =>
      match processSlot cfg k with
      | .error e => (some e, cfg)
      | .ok cfg' => unmarshalGo ks cfg'

/-- Database.unmarshal as a state transformer over the caller's dict
(src lines 3430-3804): the database-name key is read first (KeyError
when absent), then the slots are converted in order.  The first
component is the escaping exception, if any; the second is the caller's
dict after the call. -/
def unmarshalSt (cfg : Config) : Option PyErr × Config :=
  match lookupK cfg "database-name" with
  | none => (some (.keyError "database-name"), cfg)
  | some _ => unmarshalGo slotKeys cfg

/-- The in-memory Database model: the name read from the wire document
and the config dict (which, after unmarshal, is the caller's dict
itself). -/
structure Database where
  name : Value
  config : Config

/-- Database.unmarshal (src lines 3430-3804), returning the constructed
Database or the escaping exception. -/
def Database.unmarshal (cfg : Config) : Except PyErr Database :=
  match lookupK cfg "database-name" with
  | none => .error (.keyError "database-name")
  | some n =>
      match unmarshalGo slotKeys cfg with
      | (some e, _) => .error e
      | (none, cfg') => .ok ⟨n, cfg'⟩

/-- The slot keys of the marshal disjunction (src lines 3809-3828),
whose values are emitted by reading each entity's config; the field
slot is handled by a separate branch (src lines 3833-3837). -/
def marshalKnownKeys : List String :=
  ["range-element-index", "range-field-index",
   "range-element-attribute-index", "range-path-index",
   "geospatial-element-index", "geospatial-path-index",
   "geospatial-element-child-index", "geospatial-element-pair-index",
   "geospatial-element-attribute-pair-index", "fragment-root",
   "fragment-parent", "element-word-lexicon",
   "element-attribute-word-lexicon", "element-word-query-through",
   "phrase-through", "phrase-around", "default-ruleset",
   "path-namespace", "database-backup", "merge-blackout"]

/-- Python index._config: the config record of an entity object
(AttributeError on anything that is not an entity). -/
def entityConfig (v : Value) : Except PyErr Value :=
  match v with
  | .entity _ fs => .ok (.obj fs)
  | _ => .error (.attributeError "_config")

/-- Modelled from the spec: field.marshal() of the field entity classes
(marklogic/models/database/field.py, not under src/) encodes a field
entity as the record of exactly the fields that were set (spec section
4.3), here the entity's config record. -/
def entityMarshal (v : Value) : Except PyErr Value :=
  match v with
  | .entity _ fs => .ok (.obj fs)
  | _ => .error (.attributeError "marshal")

/-- The marshal treatment of one key of the config (src lines
3809-3839): known slot keys emit the list of their entities' config
records; the field key emits the list of field.marshal() records; every
other key is copied through unchanged. -/
def encodeSlotValue (k : String) (v : Value) : Except PyErr Value :=
  if marshalKnownKeys.contains k then do
    let es ← iterElems v
    let js ← mapME entityConfig es
    pure (.arr js)
  else if k == "field" then do
    let es ← iterElems v
    let js ← mapME entityMarshal es
    pure (.arr js)
  else pure v

/-- Database.marshal (src lines 3806-3840) over a config dict: walks
the keys in insertion order, building the wire document anew. -/
def marshalF : Config → Except PyErr Config
  | [] => .ok []
  | (k, v) :: rest => do
      let w ← encodeSlotValue k v
      let m ← marshalF rest
      pure ((k, w) :: m)

/-- Database.marshal of a Database model. -/
def Database.marshal (db : Database) : Except PyErr Config :=
  marshalF db.config

/-- The config dict a fresh Database is born with
(Database.__init__, src lines 71-94). -/
def freshConfig (name : String) : Config :=
  [("database-name", .str name),
   ("forest", .arr [.str (name ++ "-Forest-001")]),
   ("security-database", .str "Security"),
   ("schema-database", .str "Schemas"),
   ("enabled", .boolV true),
   ("language", .str "en")]

/-- Database(name): a fresh Database (src lines 71-94). -/
def Database.fresh (name : String) : Database :=
  ⟨.str name, freshConfig name⟩

/-- Database.element_range_indexes (src lines 3884-3890): the value of
the range-element-index key, or None when the key is absent. -/
def Database.element_range_indexes (db : Database) : Option Value :=
  lookupK db.config "range-element-index"

/-- Modelled from the spec: Field.field_name() of the field entity
classes (marklogic/models/database/field.py, not under src/).  The
WordQuery sentinel has no name — the in-src callers consistently probe
it with "field.field_name() is None" (src lines 3968, 3976, 3990) and
describe it as the field stored with an empty name — and a named field
reports its field-name config entry.  Raising AttributeError on a
non-entity models Python attribute access on a non-field object. -/
def fieldNameE (v : Value) : Except PyErr (Option Value) :=
  match v with
  | .entity tag fs =>
      if tag == "word-query" then .ok none
      else .ok (lookupK fs "field-name")
  | _ => .error (.attributeError "field_name")

/-- Database.fields (src lines 3956-3972): None when the field key is
absent; otherwise the field entities whose field_name() is not None
(the WordQuery sentinel is filtered out). -/
def Database.fields (db : Database) : Except PyErr (Option (List Value)) :=
  match lookupK db.config "field" with
  | none => .ok none
  | some v => do
      let es ← iterElems v
      let ns ← mapME fieldNameE es
      pure (some ((es.zip ns).filter (fun p => p.2.isSome) |>.map Prod.fst))

/-- The loop of Database.word_query: return the first item whose
field_name() is None. -/
def wqFind : List Value → Except PyErr (Option Value)
  | [] => .ok none
  | item :: rest => do
      let n ← fieldNameE item
      if n.isNone then .ok (some item) else wqFind rest

/-- Database.word_query (src lines 3987-3992): the first field entity
whose field_name() is None, else a fresh default WordQuery(False). -/
def Database.word_query (db : Database) : Except PyErr Value :=
  match lookupK db.config "field" with
  | none => .ok (.entity "word-query" [("include-root", .boolV false)])
  | some v => do
      let es ← iterElems v
      match (← wqFind es) with
      | some item => .ok item
      | none => .ok (.entity "word-query" [("include-root", .boolV false)])

/-- Modelled from the spec: assert_type of the validators module
(marklogic/models/utilities/validators.py, not under src/), the
black-box type check of spec section 4.1: the value passes when it is
an entity of one of the expected tags, otherwise TypeMismatch. -/
def assert_type (v : Value) (expectedTags : List String) :
    Except PyErr Value :=
  match v with
  | .entity tag fs =>
      if expectedTags.contains tag then .ok (.entity tag fs)
      else .error (.typeMismatch "unexpected entity type")
  | _ => .error (.typeMismatch "not an entity")

/-- The tags of the Field entity family (RootField, PathField and the
WordQuery sentinel all subclass Field). -/
def fieldTags : List String := ["root-field", "path-field", "word-query"]

/-- The scan loop of Database.set_word_query: Python tests
item.field_name() == "" for each item in order; at the first match the
replacement line of the source (src line 4001) assigns into the
undefined name "items", raising NameError. -/
def swqScan : List Value → Except PyErr Unit
  | [] => .ok ()
  | item :: rest => do
      let n ← fieldNameE item
      if (n.getD .null).eqStr "" then .error (.nameError "items")
      else swqScan rest

/-- Database.set_word_query (src lines 3994-4005): reads the current
field list (empty when the key is absent) and scans it for an item with
item.field_name() == "" (a match raises NameError through the undefined
name "items" of src line 4001); when nothing matches, the word query is
type-checked and appended, and the list is stored back under the field
key. -/
def Database.set_word_query (db : Database) (wq : Value) :
    Except PyErr Database := do
  let fields ←
    match lookupK db.config "field" with
    | some v => iterElems v
    | none => pure []
  let _ ← swqScan fields
  let w ← assert_type wq ["word-query"]
  pure ⟨db.name, setKey db.config "field" (.arr (fields ++ [w]))⟩

/-- The current field list of a config (the slot's sequence, or the
empty sequence when the key is absent or not a list). -/
def fieldSlotList (cfg : Config) : List Value :=
  match lookupK cfg "field" with
  | some (.arr l) => l
  | _ => []

/-- Do two field entities collide on their natural key (spec section 3,
invariant b: the field name)?  Nameless sentinels never collide. -/
def sameFieldName (a b : Value) : Bool :=
  match fieldNameE a, fieldNameE b with
  | .ok (some (.str x)), .ok (some (.str y)) => x == y
  | _, _ => false

/-- Modelled from the spec: PropertyLists.add_to_property_list for the
field slot (marklogic/models/utilities/utilities.py, not under src/).
Per spec sections 3 (invariant b), 4.1 and 7: the element is
type-checked against the slot's declared entity type, a natural-key
collision is rejected with DuplicateKey leaving the slot unmodified,
and otherwise the element is appended, preserving insertion order. -/
def add_to_property_list_field (cfg : Config) (v : Value) :
    Except PyErr Config := do
  let w ← assert_type v fieldTags
  let existing := fieldSlotList cfg
  if existing.any (fun e => sameFieldName e w) then
    .error (.duplicateKey "field")
  else
    pure (setKey cfg "field" (.arr (existing ++ [w])))

/-- Database.add_field (src lines 3974-3978): type-check against Field,
reject a nameless field with ValidationError, then delegate to the
property-list add. -/
def Database.add_field (db : Database) (f : Value) :
    Except PyErr Database := do
  let v ← assert_type f fieldTags
  let n ← fieldNameE v
  match n with
  | none => .error (.validationError "Fields must have a non-empty name")
  | some _ => do
      let cfg' ← add_to_property_list_field db.config f
      pure ⟨db.name, cfg'⟩

/-! ### General lemmas about the dict and monadic-map helpers -/

theorem lookupK_setKey_self (cfg : Config) (k : String) (v : Value) :
    lookupK (setKey cfg k v) k = some v := by
  induction cfg with
  | nil => simp [setKey, lookupK]
  | cons kv rest ih =>
      by_cases h : kv.1 == k
      · simp [setKey, h, lookupK]
      · simp [setKey, h, lookupK, ih]

theorem lookupK_setKey_ne (cfg : Config) (k' k : String) (v : Value)
    (h : (k' == k) = false) :
    lookupK (setKey cfg k' v) k = lookupK cfg k := by
  induction cfg with
  | nil => simp [setKey, lookupK, h]
  | cons kv rest ih =>
      by_cases h2 : kv.1 == k'
      · have h5 : kv.1 = k' := eq_of_beq h2
        have h3 : (kv.1 == k) = false := by rw [h5]; exact h
        simp [setKey, h2, lookupK, h, h3]
      · by_cases h4 : kv.1 == k
        · simp [setKey, h2, lookupK, h4]
        · simp [setKey, h2, lookupK, h4, ih]

theorem mapME_ok_length (f : α → Except PyErr β) (l : List α)
    (l' : List β) (h : mapME f l = .ok l') : l'.length = l.length := by
  induction l generalizing l' with
  | nil => simp [mapME] at h; simp [← h]
  | cons a as ih =>
      simp only [mapME, bind, Except.bind] at h
      cases h1 : f a with
      | error e => simp [h1] at h
      | ok b =>
          simp only [h1] at h
          cases h2 : mapME f as with
          | error e => simp [h2] at h
          | ok bs =>
              simp only [h2, pure, Except.pure, Except.ok.injEq] at h
              subst h
              simp [ih bs h2]

theorem mapME_ok_get (f : α → Except PyErr β) (l : List α) (l' : List β)
    (h : mapME f l = .ok l') (i : Nat) (hi : i < l.length)
    (hi' : i < l'.length) :
    f (l.get ⟨i, hi⟩) = .ok (l'.get ⟨i, hi'⟩) := by
  induction l generalizing l' i with
  | nil => simp at hi
  | cons a as ih =>
      simp only [mapME, bind, Except.bind] at h
      cases h1 : f a with
      | error e => simp [h1] at h
      | ok b =>
          simp only [h1] at h
          cases h2 : mapME f as with
          | error e => simp [h2] at h
          | ok bs =>
              simp only [h2, pure, Except.pure, Except.ok.injEq] at h
              subst h
              cases i with
              | zero => simpa using h1
              | succ j =>
                  simp only [List.get_cons_succ]
                  exact ih bs h2 j (by simpa using hi) (by simpa using hi')

/-- Every successfully decoded record of every slot is an entity
object. -/
theorem decodeRecord_ok_entity (k : String) (r v : Value)
    (h : decodeRecord k r = .ok v) : v.isEntityV = true := by
  unfold decodeRecord at h
  cases h1 : decodeRecordCore k r with
  | error e => simp [h1, Except.map] at h
  | ok tf =>
      simp only [h1, Except.map, Except.ok.injEq] at h
      subst h
      rfl

theorem lookupK_none_notMem (cfg : Config) (k : String)
    (h : lookupK cfg k = none) : k ∉ cfg.map Prod.fst := by
  induction cfg with
  | nil => simp
  | cons kv rest ih =>
      by_cases h1 : kv.1 == k
      · simp [lookupK, h1] at h
      · simp only [lookupK, h1, if_false, Bool.false_eq_true] at h
        have h2 : kv.1 ≠ k := by
          intro he; rw [he] at h1; simp at h1
        simp [h2.symm, ih h]

theorem setKey_keys (cfg : Config) (k : String) (v : Value) :
    (setKey cfg k v).map Prod.fst =
      if (lookupK cfg k).isSome then cfg.map Prod.fst
      else cfg.map Prod.fst ++ [k] := by
  induction cfg with
  | nil => simp [setKey, lookupK]
  | cons kv rest ih =>
      by_cases h : kv.1 == k
      · have he : kv.1 = k := eq_of_beq h
        simp [setKey, h, lookupK, he]
      · simp only [setKey, h, if_false, lookupK, List.map_cons, ih,
          Bool.false_eq_true]
        split <;> simp

theorem setKey_keys_nodup (cfg : Config) (k : String) (v : Value)
    (hnd : (cfg.map Prod.fst).Nodup) :
    ((setKey cfg k v).map Prod.fst).Nodup := by
  rw [setKey_keys]
  cases h : lookupK cfg k with
  | some w => simpa using hnd
  | none =>
      simp only [h, Option.isSome_none, Bool.false_eq_true, if_false]
      refine List.Nodup.append hnd (List.nodup_singleton k) ?_
      intro a ha hb
      have hak : a = k := by simpa using hb
      rw [hak] at ha
      exact lookupK_none_notMem cfg k h ha

theorem lookupK_of_mem_nodup (cfg : Config)
    (hnd : (cfg.map Prod.fst).Nodup) (k : String) (v : Value)
    (hm : (k, v) ∈ cfg) : lookupK cfg k = some v := by
  induction cfg with
  | nil => cases hm
  | cons kv rest ih =>
      rcases List.mem_cons.mp hm with he | hm'
      · rw [← he]; simp [lookupK]
      · have hk : k ∈ rest.map Prod.fst := by
          exact List.mem_map.mpr ⟨(k, v), hm', rfl⟩
        have hnd2 : kv.1 ∉ rest.map Prod.fst ∧ (rest.map Prod.fst).Nodup := by
          rw [List.map_cons] at hnd
          exact List.nodup_cons.mp hnd
        have hne : kv.1 ≠ k := by
          intro he
          exact hnd2.1 (he ▸ hk)
        have hne2 : (kv.1 == k) = false := beq_eq_false_iff_ne.mpr hne
        simp only [lookupK, hne2, Bool.false_eq_true, if_false]
        exact ih hnd2.2 hm'

/-! ### Lemmas about the unmarshal slot loop -/

theorem processSlot_ok_lookup_ne (cfg cfg₁ : Config) (k' k : String)
    (h : processSlot cfg k' = .ok cfg₁) (hne : (k' == k) = false) :
    lookupK cfg₁ k = lookupK cfg k := by
  unfold processSlot at h
  cases h1 : lookupK cfg k' with
  | none =>
      simp only [h1, Except.ok.injEq] at h
      rw [← h]
      exact lookupK_setKey_ne _ _ _ _ hne
  | some v =>
      simp only [h1, bind, Except.bind] at h
      cases h2 : iterElems v with
      | error e => simp [h2] at h
      | ok rs =>
          simp only [h2] at h
          cases h3 : mapME (decodeRecord k') rs with
          | error e => simp [h3] at h
          | ok es =>
              simp only [h3, pure, Except.pure, Except.ok.injEq] at h
              rw [← h]
              exact lookupK_setKey_ne _ _ _ _ hne

theorem processSlot_ok_self (cfg cfg₁ : Config) (k : String)
    (h : processSlot cfg k = .ok cfg₁) :
    ∃ es : List Value,
      lookupK cfg₁ k = some (.arr es) ∧
      (lookupK cfg k = none → es = []) ∧
      (∀ v, lookupK cfg k = some v →
        ∃ rs, iterElems v = .ok rs ∧ mapME (decodeRecord k) rs = .ok es) := by
  unfold processSlot at h
  cases h1 : lookupK cfg k with
  | none =>
      simp only [h1, Except.ok.injEq] at h
      refine ⟨[], ?_, fun _ => rfl, ?_⟩
      · rw [← h]
        exact lookupK_setKey_self _ _ _
      · intro v hv
        cases hv
  | some v =>
      simp only [h1, bind, Except.bind] at h
      cases h2 : iterElems v with
      | error e => simp [h2] at h
      | ok rs =>
          simp only [h2] at h
          cases h3 : mapME (decodeRecord k) rs with
          | error e => simp [h3] at h
          | ok es =>
              simp only [h3, pure, Except.pure, Except.ok.injEq] at h
              refine ⟨es, ?_, ?_, ?_⟩
              · rw [← h]
                exact lookupK_setKey_self _ _ _
              · intro hn
                cases hn
              · intro w hw
                cases hw
                exact ⟨rs, h2, h3⟩

theorem processSlot_ok_keys_nodup (cfg cfg₁ : Config) (k : String)
    (h : processSlot cfg k = .ok cfg₁)
    (hnd : (cfg.map Prod.fst).Nodup) :
    ((cfg₁.map Prod.fst)).Nodup := by
  unfold processSlot at h
  cases h1 : lookupK cfg k with
  | none =>
      simp only [h1, Except.ok.injEq] at h
      rw [← h]
      exact setKey_keys_nodup _ _ _ hnd
  | some v =>
      simp only [h1, bind, Except.bind] at h
      cases h2 : iterElems v with
      | error e => simp [h2] at h
      | ok rs =>
          simp only [h2] at h
          cases h3 : mapME (decodeRecord k) rs with
          | error e => simp [h3] at h
          | ok es =>
              simp only [h3, pure, Except.pure, Except.ok.injEq] at h
              rw [← h]
              exact setKey_keys_nodup _ _ _ hnd

theorem unmarshalGo_ok_lookup_notMem (ks : List String) (cfg cfg' : Config)
    (k : String) (h : unmarshalGo ks cfg = (none, cfg')) (hk : k ∉ ks) :
    lookupK cfg' k = lookupK cfg k := by
  induction ks generalizing cfg with
  | nil =>
      simp only [unmarshalGo, Prod.mk.injEq] at h
      rw [← h.2]
  | cons k0 ks ih =>
      simp only [unmarshalGo] at h
      cases h1 : processSlot cfg k0 with
      | error e => simp [h1] at h
      | ok cfg₁ =>
          simp only [h1] at h
          have hk0 : k0 ≠ k := by
            intro he; exact hk (by simp [he])
          have hstep := processSlot_ok_lookup_ne cfg cfg₁ k0 k h1
            (beq_eq_false_iff_ne.mpr hk0)
          have htail := ih cfg₁ h (fun hm => hk (List.mem_cons_of_mem _ hm))
          rw [htail, hstep]

theorem unmarshalGo_ok_keys_nodup (ks : List String) (cfg cfg' : Config)
    (h : unmarshalGo ks cfg = (none, cfg'))
    (hnd : (cfg.map Prod.fst).Nodup) : (cfg'.map Prod.fst).Nodup := by
  induction ks generalizing cfg with
  | nil =>
      simp only [unmarshalGo, Prod.mk.injEq] at h
      rw [← h.2]; exact hnd
  | cons k0 ks ih =>
      simp only [unmarshalGo] at h
      cases h1 : processSlot cfg k0 with
      | error e => simp [h1] at h
      | ok cfg₁ =>
          simp only [h1] at h
          exact ih cfg₁ h (processSlot_ok_keys_nodup cfg cfg₁ k0 h1 hnd)

/-- The master slot lemma: after a successful run of the unmarshal slot
loop, each processed slot key is bound to the list of decoded entities
of its raw records, the empty list when the key was absent on entry. -/
theorem unmarshalGo_ok_slot (ks : List String) (cfg cfg' : Config)
    (k : String) (h : unmarshalGo ks cfg = (none, cfg')) (hnd : ks.Nodup)
    (hk : k ∈ ks) :
    ∃ es : List Value,
      lookupK cfg' k = some (.arr es) ∧
      (lookupK cfg k = none → es = []) ∧
      (∀ v, lookupK cfg k = some v →
        ∃ rs, iterElems v = .ok rs ∧ mapME (decodeRecord k) rs = .ok es) := by
  induction ks generalizing cfg with
  | nil => cases hk
  | cons k0 ks ih =>
      simp only [unmarshalGo] at h
      cases h1 : processSlot cfg k0 with
      | error e => simp [h1] at h
      | ok cfg₁ =>
          simp only [h1] at h
          rcases List.mem_cons.mp hk with he | hm
          · subst he
            obtain ⟨es, hes, hnone, hsome⟩ := processSlot_ok_self _ _ _ h1
            have hnotin : k ∉ ks := (List.nodup_cons.mp hnd).1
            have hpres := unmarshalGo_ok_lookup_notMem ks cfg₁ cfg' k h hnotin
            exact ⟨es, by rw [hpres]; exact hes, hnone, hsome⟩
          · have hne : (k0 == k) = false := by
              refine beq_eq_false_iff_ne.mpr ?_
              intro he
              exact (List.nodup_cons.mp hnd).1 (he ▸ hm)
            have heq := processSlot_ok_lookup_ne cfg cfg₁ k0 k h1 hne
            obtain ⟨es, h1', h2', h3'⟩ :=
              ih cfg₁ h (List.nodup_cons.mp hnd).2 hm
            exact ⟨es, h1', fun hn => h2' (heq.trans hn),
              fun v hv => h3' v (heq.trans hv)⟩

/-- Every entity list produced by the decode of a slot consists of
entity objects only. -/
theorem mapME_decode_all_entity (k : String) (rs es : List Value)
    (h : mapME (decodeRecord k) rs = .ok es) :
    es.all Value.isEntityV = true := by
  induction rs generalizing es with
  | nil =>
      simp only [mapME, Except.ok.injEq] at h
      rw [← h]
      rfl
  | cons r rest ih =>
      simp only [mapME, bind, Except.bind] at h
      cases h1 : decodeRecord k r with
      | error e => simp [h1] at h
      | ok v =>
          simp only [h1] at h
          cases h2 : mapME (decodeRecord k) rest with
          | error e => simp [h2] at h
          | ok vs =>
              simp only [h2, pure, Except.pure, Except.ok.injEq] at h
              subst h
              simp [List.all_cons, decodeRecord_ok_entity k r v h1, ih vs h2]

/-! ### Lemmas about marshal -/

theorem mapME_ok_of_entities (f : Value → Except PyErr Value)
    (hf : ∀ t fs, f (.entity t fs) = .ok (.obj fs))
    (es : List Value) (hall : es.all Value.isEntityV = true) :
    ∃ js, mapME f es = .ok js ∧ js.length = es.length := by
  induction es with
  | nil => exact ⟨[], rfl, rfl⟩
  | cons e rest ih =>
      rw [List.all_cons, Bool.and_eq_true] at hall
      obtain ⟨js, hjs, hlen⟩ := ih hall.2
      cases e with
      | entity t fs =>
          refine ⟨.obj fs :: js, ?_, by simp [hlen]⟩
          simp [mapME, hf, hjs, bind, Except.bind]
      | null => simp [Value.isEntityV] at hall
      | str s => simp [Value.isEntityV] at hall
      | boolV b => simp [Value.isEntityV] at hall
      | intV n => simp [Value.isEntityV] at hall
      | arr l => simp [Value.isEntityV] at hall
      | obj l => simp [Value.isEntityV] at hall

theorem marshalKnown_sub_slot (k : String)
    (h : marshalKnownKeys.contains k = true) : k ∈ slotKeys := by
  have hm : k ∈ marshalKnownKeys := by simpa using h
  fin_cases hm <;> decide

theorem field_mem_slotKeys : "field" ∈ slotKeys := by decide

/-- A key of one of the 21 decoded slots goes through the entity-list
branch of marshal, a key of none of them is copied verbatim. -/
theorem encodeSlotValue_other (k : String) (v : Value)
    (h1 : marshalKnownKeys.contains k = false)
    (h2 : (k == "field") = false) : encodeSlotValue k v = .ok v := by
  simp only [encodeSlotValue, h1, h2]
  rfl

theorem encodeSlotValue_slot (k : String) (es : List Value)
    (hk : k ∈ slotKeys) (hall : es.all Value.isEntityV = true) :
    ∃ js, encodeSlotValue k (.arr es) = .ok (.arr js) ∧
      js.length = es.length := by
  by_cases hc : marshalKnownKeys.contains k = true
  · obtain ⟨js, hjs, hlen⟩ :=
      mapME_ok_of_entities entityConfig (fun t fs => rfl) es hall
    refine ⟨js, ?_, hlen⟩
    simp only [encodeSlotValue, hc, if_true, iterElems, bind, Except.bind,
      hjs]
    rfl
  · have hf : k = "field" := by
      have hcov : marshalKnownKeys.contains k = true ∨ k = "field" := by
        fin_cases hk <;> simp [marshalKnownKeys]
      rcases hcov with hcov | hcov
      · exact absurd hcov hc
      · exact hcov
    obtain ⟨js, hjs, hlen⟩ :=
      mapME_ok_of_entities entityMarshal (fun t fs => rfl) es hall
    refine ⟨js, ?_, hlen⟩
    have hc2 : marshalKnownKeys.contains k = false := by
      cases hcc : marshalKnownKeys.contains k
      · rfl
      · exact absurd hcc hc
    subst hf
    simp only [encodeSlotValue, hc2, iterElems, bind, Except.bind, hjs]
    rfl

theorem marshalF_total (cfg : Config)
    (h : ∀ kv ∈ cfg, ∃ w, encodeSlotValue kv.1 kv.2 = .ok w) :
    ∃ m, marshalF cfg = .ok m := by
  induction cfg with
  | nil => exact ⟨[], rfl⟩
  | cons kv rest ih =>
      obtain ⟨w, hw⟩ := h kv (List.mem_cons_self _ _)
      obtain ⟨m, hm⟩ := ih (fun kv2 h2 => h kv2 (List.mem_cons_of_mem _ h2))
      refine ⟨(kv.1, w) :: m, ?_⟩
      simp [marshalF, hw, hm, bind, Except.bind, pure, Except.pure]

theorem marshalF_ok_lookup (cfg m : Config) (h : marshalF cfg = .ok m)
    (k : String) (v : Value) (hv : lookupK cfg k = some v) :
    ∃ w, encodeSlotValue k v = .ok w ∧ lookupK m k = some w := by
  induction cfg generalizing m with
  | nil => simp [lookupK] at hv
  | cons kv rest ih =>
      simp only [marshalF, bind, Except.bind] at h
      cases h1 : encodeSlotValue kv.1 kv.2 with
      | error e => simp [h1] at h
      | ok w0 =>
          simp only [h1] at h
          cases h2 : marshalF rest with
          | error e => simp [h2] at h
          | ok m' =>
              simp only [h2, pure, Except.pure, Except.ok.injEq] at h
              subst h
              by_cases hk : kv.1 == k
              · have he : kv.1 = k := eq_of_beq hk
                simp only [lookupK, hk, if_true, Option.some.injEq] at hv
                subst hv
                refine ⟨w0, by rw [← he]; exact h1, ?_⟩
                simp [lookupK, hk]
              · simp only [lookupK, hk, Bool.false_eq_true, if_false] at hv
                obtain ⟨w, hw1, hw2⟩ := ih m' h2 hv
                refine ⟨w, hw1, ?_⟩
                simp [lookupK, hk, hw2]

/-! ### Shared facts about the slot list and the unmarshal wrapper -/

theorem slotKeys_nodup : slotKeys.Nodup := by decide

theorem unmarshalSt_ok_go (cfg cfg' : Config)
    (h : unmarshalSt cfg = (none, cfg')) :
    unmarshalGo slotKeys cfg = (none, cfg') := by
  unfold unmarshalSt at h
  cases h1 : lookupK cfg "database-name" with
  | none => rw [h1] at h; simp at h
  | some n => rw [h1] at h; exact h

/-- A successful unmarshal leaves a config every entry of which marshal
can encode, so the round trip never fails on the encode side. -/
theorem unmarshal_then_marshal_total (cfg cfg' : Config)
    (hnd : (cfg.map Prod.fst).Nodup)
    (h : unmarshalGo slotKeys cfg = (none, cfg')) :
    ∃ m, marshalF cfg' = .ok m := by
  have hnd' := unmarshalGo_ok_keys_nodup _ _ _ h hnd
  apply marshalF_total
  intro kv hm
  obtain ⟨k, v⟩ := kv
  by_cases hk : k ∈ slotKeys
  · obtain ⟨es, hes, hnone, hdec⟩ :=
      unmarshalGo_ok_slot slotKeys cfg cfg' k h slotKeys_nodup hk
    have hlv : lookupK cfg' k = some v :=
      lookupK_of_mem_nodup cfg' hnd' k v hm
    rw [hlv] at hes
    cases hes
    have hall : es.all Value.isEntityV = true := by
      cases hlk : lookupK cfg k with
      | none => rw [hnone hlk]; rfl
      | some w =>
          obtain ⟨rs, _, hmm⟩ := hdec w hlk
          exact mapME_decode_all_entity _ _ _ hmm
    obtain ⟨js, hjs, _⟩ := encodeSlotValue_slot k es hk hall
    exact ⟨.arr js, hjs⟩
  · have h1 : marshalKnownKeys.contains k = false := by
      cases hc : marshalKnownKeys.contains k
      · rfl
      · exact absurd (marshalKnown_sub_slot _ hc) hk
    have h2 : (k == "field") = false := by
      cases hc : k == "field"
      · rfl
      · exact absurd (by rw [eq_of_beq hc]; exact field_mem_slotKeys) hk
    exact ⟨v, encodeSlotValue_other _ _ h1 h2⟩

/-! ### Per-rule facts about the merge-blackout and backup decoders -/

/-- An unknown blackout-type tag short-circuits every probe and lands in
the catch-all else branch. -/
theorem blackout_unknown_tag (r tv : Value)
    (htv : getK r "blackout-type" = .ok tv)
    (h1 : tv.eqStr "recurring" = false) (h2 : tv.eqStr "once" = false) :
    decodeRecord "merge-blackout" r =
      .error (.apiError "Unparseable merge blackout period") := by
  have hcore : decodeRecordCore "merge-blackout" r =
      decodeMergeBlackout r := rfl
  simp only [decodeRecord, hcore, decodeMergeBlackout, htv, bind,
    Except.bind, h1, h2]
  rfl

/-- A blackout tagged once with a null period reaches the membership
probe on None, a TypeError, not the catch-all else branch. -/
theorem blackout_once_null (r : Value)
    (htv : getK r "blackout-type" = .ok (.str "once"))
    (hper : getK r "period" = .ok .null) :
    decodeRecord "merge-blackout" r = .error .typeError := by
  have hcore : decodeRecordCore "merge-blackout" r =
      decodeMergeBlackout r := rfl
  simp only [decodeRecord, hcore, decodeMergeBlackout, htv, hper, bind,
    Except.bind, Value.eqStr, memTest]
  rfl

/-- A recurring blackout whose period record has neither a duration nor
an end-time key matches no probe and lands in the catch-all branch. -/
theorem blackout_recurring_no_rule (r : Value) (p : Config)
    (htv : getK r "blackout-type" = .ok (.str "recurring"))
    (hper : getK r "period" = .ok (.obj p))
    (hdu : lookupK p "duration" = none)
    (het : lookupK p "end-time" = none) :
    decodeRecord "merge-blackout" r =
      .error (.apiError "Unparseable merge blackout period") := by
  have hcore : decodeRecordCore "merge-blackout" r =
      decodeMergeBlackout r := rfl
  simp only [decodeRecord, hcore, decodeMergeBlackout, htv, hper, bind,
    Except.bind, Value.eqStr, memTest, hdu, het]
  rfl

/-- An unknown backup-type tag lands in the catch-all else branch of the
backup decoder. -/
theorem backup_unknown_tag (l : Config) (tv : Value)
    (htv : lookupK l "backup-type" = some tv)
    (h1 : tv.eqStr "minutely" = false) (h2 : tv.eqStr "hourly" = false)
    (h3 : tv.eqStr "daily" = false) (h4 : tv.eqStr "weekly" = false)
    (h5 : tv.eqStr "monthly" = false) (h6 : tv.eqStr "once" = false) :
    decodeRecord "database-backup" (.obj l) =
      .error (.apiError "Unparseable backup") := by
  have hcore : decodeRecordCore "database-backup" (.obj l) =
      decodeDatabaseBackup (.obj l) := rfl
  cases hinc : lookupK l "incremental" with
  | none =>
      simp only [decodeRecord, hcore, decodeDatabaseBackup, memTest, getK,
        hinc, htv, bind, Except.bind, h1, h2, h3, h4, h5, h6,
        Option.isSome_none]
      rfl
  | some w =>
      simp only [decodeRecord, hcore, decodeDatabaseBackup, memTest, getK,
        hinc, htv, bind, Except.bind, h1, h2, h3, h4, h5, h6,
        Option.isSome_some]
      rfl

/-! ### Claim theorems -/

/-- C1: for every merge-blackout wire record with blackout-type
"recurring": a null period decodes to the recurring all-day variant,
and a period record containing the key "duration" decodes to the
recurring-duration variant built from the period's start-time and
duration.  The probes run in a fixed order (tag equality, then
period-null, then duration presence, then end-time presence), so the
second part holds for any period record containing "duration", in
particular one that also contains "end-time". -/
theorem mergeBlackout_recurring_discrimination
    (l p : Config) (pr li dy st du : Value)
    (htag : lookupK l "blackout-type" = some (.str "recurring"))
    (hpr : lookupK l "merge-priority" = some pr)
    (hli : lookupK l "limit" = some li)
    (hdy : lookupK l "day" = some dy) :
    (lookupK l "period" = some .null →
      decodeRecord "merge-blackout" (.obj l) =
        .ok (.entity "merge-blackout-recurring-all-day"
          [("blackout-type", .str "recurring"), ("merge-priority", pr),
           ("limit", li), ("day", dy), ("period", .null)])) ∧
    (lookupK l "period" = some (.obj p) →
      lookupK p "duration" = some du →
      lookupK p "start-time" = some st →
      decodeRecord "merge-blackout" (.obj l) =
        .ok (.entity "merge-blackout-recurring-duration"
          [("blackout-type", .str "recurring"), ("merge-priority", pr),
           ("limit", li), ("day", dy), ("start-time", st),
           ("duration", du)])) := by
  have hcore : decodeRecordCore "merge-blackout" (.obj l) =
      decodeMergeBlackout (.obj l) := rfl
  constructor
  · intro hper
    simp only [decodeRecord, hcore, decodeMergeBlackout, getK, htag, hper,
      hpr, hli, hdy, bind, Except.bind, Value.eqStr]
    rfl
  · intro hper hdu hst
    simp only [decodeRecord, hcore, decodeMergeBlackout, getK, htag, hper,
      hpr, hli, hdy, bind, Except.bind, Value.eqStr, memTest, hdu, hst]
    rfl

/-- Witness for C1: the two literal records of the spec, the second with
a period carrying both duration and end-time to exercise the probe
order. -/
theorem mergeBlackout_recurring_discrimination_witness :
    decodeRecord "merge-blackout" (.obj
      [("blackout-type", .str "recurring"), ("period", .null),
       ("merge-priority", .str "normal"), ("limit", .intV 1),
       ("day", .arr [.str "Saturday"])]) =
      .ok (.entity "merge-blackout-recurring-all-day"
        [("blackout-type", .str "recurring"),
         ("merge-priority", .str "normal"), ("limit", .intV 1),
         ("day", .arr [.str "Saturday"]), ("period", .null)]) ∧
    decodeRecord "merge-blackout" (.obj
      [("blackout-type", .str "recurring"),
       ("period", .obj [("start-time", .str "08:00:00"),
         ("duration", .str "P1H"), ("end-time", .str "09:00:00")]),
       ("merge-priority", .str "normal"), ("limit", .intV 2),
       ("day", .arr [.str "Sunday"])]) =
      .ok (.entity "merge-blackout-recurring-duration"
        [("blackout-type", .str "recurring"),
         ("merge-priority", .str "normal"), ("limit", .intV 2),
         ("day", .arr [.str "Sunday"]), ("start-time", .str "08:00:00"),
         ("duration", .str "P1H")]) :=
  ⟨(mergeBlackout_recurring_discrimination
      [("blackout-type", .str "recurring"), ("period", .null),
       ("merge-priority", .str "normal"), ("limit", .intV 1),
       ("day", .arr [.str "Saturday"])] []
      (.str "normal") (.intV 1) (.arr [.str "Saturday"]) .null .null
      rfl rfl rfl rfl).1 rfl,
   (mergeBlackout_recurring_discrimination
      [("blackout-type", .str "recurring"),
       ("period", .obj [("start-time", .str "08:00:00"),
         ("duration", .str "P1H"), ("end-time", .str "09:00:00")]),
       ("merge-priority", .str "normal"), ("limit", .intV 2),
       ("day", .arr [.str "Sunday"])]
      [("start-time", .str "08:00:00"), ("duration", .str "P1H"),
       ("end-time", .str "09:00:00")]
      (.str "normal") (.intV 2) (.arr [.str "Sunday"])
      (.str "08:00:00") (.str "P1H")
      rfl rfl rfl rfl).2 rfl rfl rfl⟩

/-- C2 counterexample: a merge-blackout record tagged once with a null
period makes unmarshal fail with a TypeError (the membership test on
None), not with the unrecognized-variant error, so the claim that every
non-matching record fails with the unrecognized-variant error is false
at this input. -/
theorem unmarshal_once_null_not_unrecognized :
    (unmarshalSt
      [("database-name", .str "db"),
       ("merge-blackout", .arr [.obj
         [("blackout-type", .str "once"), ("period", .null),
          ("merge-priority", .str "normal"), ("limit", .intV 1),
          ("day", .arr [])]])]).1 = some PyErr.typeError ∧
    PyErr.typeError.isUnrecognizedVariant = false := ⟨rfl, rfl⟩

/-- C2 amended: decode over a variant slot is total with a hard failure
on every record matching no discriminator rule, and a successful
unmarshal decodes every record of every slot (none dropped or coerced);
the failure is the unrecognized-variant error for unknown blackout and
backup tags and for a recurring blackout whose period record matches no
shape, but blackout-type once with a null period fails with a TypeError
instead. -/
theorem variant_decode_total_failure_modes :
    (∀ (r tv : Value), getK r "blackout-type" = .ok tv →
      tv.eqStr "recurring" = false → tv.eqStr "once" = false →
      decodeRecord "merge-blackout" r =
        .error (.apiError "Unparseable merge blackout period")) ∧
    (∀ (l : Config) (tv : Value), lookupK l "backup-type" = some tv →
      tv.eqStr "minutely" = false → tv.eqStr "hourly" = false →
      tv.eqStr "daily" = false → tv.eqStr "weekly" = false →
      tv.eqStr "monthly" = false → tv.eqStr "once" = false →
      decodeRecord "database-backup" (.obj l) =
        .error (.apiError "Unparseable backup")) ∧
    (∀ r : Value, getK r "blackout-type" = .ok (.str "once") →
      getK r "period" = .ok .null →
      decodeRecord "merge-blackout" r = .error .typeError ∧
      PyErr.typeError.isUnrecognizedVariant = false) ∧
    (∀ (r : Value) (p : Config),
      getK r "blackout-type" = .ok (.str "recurring") →
      getK r "period" = .ok (.obj p) →
      lookupK p "duration" = none → lookupK p "end-time" = none →
      decodeRecord "merge-blackout" r =
        .error (.apiError "Unparseable merge blackout period")) ∧
    (∀ (cfg cfg' : Config) (k : String) (v : Value) (rs : List Value),
      unmarshalSt cfg = (none, cfg') → k ∈ slotKeys →
      lookupK cfg k = some v → iterElems v = .ok rs →
      ∃ es, mapME (decodeRecord k) rs = .ok es ∧
        es.length = rs.length) := by
  refine ⟨fun r tv h1 h2 h3 => blackout_unknown_tag r tv h1 h2 h3,
    fun l tv h h1 h2 h3 h4 h5 h6 =>
      backup_unknown_tag l tv h h1 h2 h3 h4 h5 h6,
    fun r h1 h2 => ⟨blackout_once_null r h1 h2, rfl⟩,
    fun r p h1 h2 h3 h4 => blackout_recurring_no_rule r p h1 h2 h3 h4,
    ?_⟩
  intro cfg cfg' k v rs h hk hv hrs
  obtain ⟨es, _, _, hdec⟩ := unmarshalGo_ok_slot slotKeys cfg cfg' k
    (unmarshalSt_ok_go cfg cfg' h) slotKeys_nodup hk
  obtain ⟨rs', hrs', hmm⟩ := hdec v hv
  have he : rs' = rs := by
    rw [hrs] at hrs'
    exact (Except.ok.inj hrs').symm
  subst he
  exact ⟨es, hmm, mapME_ok_length _ _ _ hmm⟩

/-- Witness for the amended C2 at concrete unknown-tag records and one
well-formed document. -/
theorem variant_decode_total_failure_modes_witness :
    decodeRecord "merge-blackout" (.obj [("blackout-type", .str "weird")])
      = .error (.apiError "Unparseable merge blackout period") ∧
    decodeRecord "database-backup" (.obj [("backup-type", .str "weird")])
      = .error (.apiError "Unparseable backup") ∧
    (∃ es, mapME (decodeRecord "merge-blackout")
        [.obj [("blackout-type", .str "recurring"), ("period", .null),
               ("merge-priority", .str "normal"), ("limit", .intV 1),
               ("day", .arr [])]] = .ok es ∧ es.length = 1) :=
  ⟨variant_decode_total_failure_modes.1 _ (.str "weird") rfl rfl rfl,
   variant_decode_total_failure_modes.2.1 _ (.str "weird")
     rfl rfl rfl rfl rfl rfl rfl,
   variant_decode_total_failure_modes.2.2.2.2
     [("database-name", .str "db"),
      ("merge-blackout", .arr
        [.obj [("blackout-type", .str "recurring"), ("period", .null),
               ("merge-priority", .str "normal"), ("limit", .intV 1),
               ("day", .arr [])]])]
     (unmarshalSt
       [("database-name", .str "db"),
        ("merge-blackout", .arr
          [.obj [("blackout-type", .str "recurring"), ("period", .null),
                 ("merge-priority", .str "normal"), ("limit", .intV 1),
                 ("day", .arr [])]])]).2
     "merge-blackout" _ _ rfl (by decide) rfl rfl⟩

/-- A raw range-element-index record used to exhibit the in-place
conversion of an early slot. -/
def rawERI : Value :=
  .obj [("scalar-type", .str "int"), ("namespace-uri", .str ""),
        ("localname", .str "a"), ("collation", .str ""),
        ("range-value-positions", .str "false"),
        ("invalid-values", .str "reject")]

/-- The entity the raw record above decodes to. -/
def eriEntity : Value :=
  .entity "element-range-index"
    [("scalar-type", .str "int"), ("namespace-uri", .str ""),
     ("localname", .str "a"), ("collation", .str ""),
     ("range-value-positions", .boolV false),
     ("invalid-values", .str "reject")]

/-- A wire document with a valid range-element-index record and a
merge-blackout slot holding the given record. -/
def docMutG (rb : Value) : Config :=
  [("database-name", .str "db"),
   ("range-element-index", .arr [rawERI]),
   ("merge-blackout", .arr [rb])]

/-- The caller's dict as the failing unmarshal of docMutG leaves it:
the range-element-index slot converted in place, the ten slots between
it and merge-blackout filled with empty lists, the failing slot and the
later slots untouched. -/
def docMutAfter (rb : Value) : Config :=
  [("database-name", .str "db"),
   ("range-element-index", .arr [eriEntity]),
   ("merge-blackout", .arr [rb]),
   ("range-field-index", .arr []),
   ("range-element-attribute-index", .arr []),
   ("range-path-index", .arr []),
   ("geospatial-element-index", .arr []),
   ("geospatial-path-index", .arr []),
   ("geospatial-element-child-index", .arr []),
   ("geospatial-element-pair-index", .arr []),
   ("geospatial-element-attribute-pair-index", .arr []),
   ("fragment-root", .arr []),
   ("fragment-parent", .arr [])]

/-- A merge-blackout record with an unknown tag. -/
def rbBogus : Value := .obj [("blackout-type", .str "bogus")]

/-- Does the slot hold a list made of entity objects only? -/
def slotAllEntities (cfg : Config) (k : String) : Bool :=
  match lookupK cfg k with
  | some (.arr l) => l.all Value.isEntityV
  | _ => false

/-- C3 counterexample: on this concrete document unmarshal fails, yet
the caller's dict is not left unchanged: the range-element-index slot,
decoded before the failing merge-blackout record, is left converted to
an entity list in the caller's dict. -/
theorem unmarshal_failure_changes_input_concrete :
    (unmarshalSt (docMutG rbBogus)).1 =
      some (.apiError "Unparseable merge blackout period") ∧
    lookupK (unmarshalSt (docMutG rbBogus)).2 "range-element-index" =
      some (.arr [eriEntity]) ∧
    lookupK (docMutG rbBogus) "range-element-index" =
      some (.arr [rawERI]) ∧
    (unmarshalSt (docMutG rbBogus)).2 ≠ docMutG rbBogus := by
  refine ⟨rfl, rfl, rfl, ?_⟩
  intro h
  have h2 : slotAllEntities (unmarshalSt (docMutG rbBogus)).2
        "range-element-index" =
      slotAllEntities (docMutG rbBogus) "range-element-index" :=
    congrArg (fun c => slotAllEntities c "range-element-index") h
  have h3 : slotAllEntities (unmarshalSt (docMutG rbBogus)).2
      "range-element-index" = true := rfl
  have h4 : slotAllEntities (docMutG rbBogus) "range-element-index" =
      false := rfl
  rw [h3, h4] at h2
  exact Bool.noConfusion h2

/-- C3 amended: when a record of the merge-blackout slot fails to
decode, unmarshal raises the error and returns no Database, but the
caller's dict is mutated in place: the range-element-index slot decoded
before the failure is left converted, the intervening absent slots are
filled with empty lists, and the failing slot keeps its raw records. -/
theorem unmarshal_failure_mutates_input (rb : Value) (e : PyErr)
    (hrb : decodeRecord "merge-blackout" rb = .error e) :
    unmarshalSt (docMutG rb) = (some e, docMutAfter rb) ∧
    lookupK (docMutAfter rb) "range-element-index" =
      some (.arr [eriEntity]) ∧
    lookupK (docMutG rb) "range-element-index" = some (.arr [rawERI]) ∧
    lookupK (docMutAfter rb) "range-field-index" = some (.arr []) ∧
    lookupK (docMutG rb) "range-field-index" = none ∧
    lookupK (docMutAfter rb) "merge-blackout" = some (.arr [rb]) := by
  refine ⟨?_, rfl, rfl, rfl, rfl, rfl⟩
  have h11 : unmarshalGo slotKeys (docMutG rb) =
      unmarshalGo ["merge-blackout", "database-backup", "path-namespace",
        "element-word-lexicon", "element-attribute-word-lexicon",
        "element-word-query-through", "phrase-through", "phrase-around",
        "default-ruleset", "field"] (docMutAfter rb) := rfl
  have hlk : lookupK (docMutAfter rb) "merge-blackout" =
      some (.arr [rb]) := rfl
  have hstep : processSlot (docMutAfter rb) "merge-blackout" =
      .error e := by
    simp only [processSlot, hlk, iterElems, mapME, hrb, bind, Except.bind]
  show unmarshalSt (docMutG rb) = (some e, docMutAfter rb)
  unfold unmarshalSt
  have hdb : lookupK (docMutG rb) "database-name" = some (.str "db") := rfl
  rw [hdb, h11]
  simp only [unmarshalGo, hstep]

/-- Witness for the amended C3 at the concrete bogus-tag record. -/
theorem unmarshal_failure_mutates_input_witness :
    unmarshalSt (docMutG rbBogus) =
      (some (.apiError "Unparseable merge blackout period"),
       docMutAfter rbBogus) ∧
    lookupK (docMutAfter rbBogus) "range-element-index" =
      some (.arr [eriEntity]) ∧
    lookupK (docMutG rbBogus) "range-element-index" =
      some (.arr [rawERI]) ∧
    lookupK (docMutAfter rbBogus) "range-field-index" = some (.arr []) ∧
    lookupK (docMutG rbBogus) "range-field-index" = none ∧
    lookupK (docMutAfter rbBogus) "merge-blackout" =
      some (.arr [rbBogus]) :=
  unmarshal_failure_mutates_input rbBogus
    (.apiError "Unparseable merge blackout period") rfl

/-- The first word query set on the fresh database. -/
def wq1C4 : Value := .entity "word-query" [("include-root", .boolV false)]

/-- The second word query set on the same database. -/
def wq2C4 : Value := .entity "word-query" [("include-root", .boolV true)]

/-- The config the two calls leave behind: the field slot holds both
word queries. -/
def cfgTwoWQ : Config :=
  freshConfig "temp" ++ [("field", .arr [wq1C4, wq2C4])]

/-- C4: calling set_word_query twice on a fresh Database does not
replace the first sentinel: the scan matches items whose field_name()
equals the empty string, but the nameless WordQuery sentinel reports
None (and a match would only hit the undefined name of src line 4001),
so the second call appends a second sentinel and the field slot ends
with two word-query entities, not one. -/
theorem set_word_query_twice_appends_second_sentinel :
    ((Database.fresh "temp").set_word_query wq1C4).bind
        (fun d => d.set_word_query wq2C4) =
      .ok ⟨.str "temp", cfgTwoWQ⟩ ∧
    fieldSlotList cfgTwoWQ = [wq1C4, wq2C4] ∧
    (fieldSlotList cfgTwoWQ).length = 2 ∧
    fieldNameE wq1C4 = .ok none ∧ fieldNameE wq2C4 = .ok none :=
  ⟨rfl, rfl, rfl, rfl, rfl⟩

/-- C5: after a successful unmarshal of a wire document, marshal of the
resulting config succeeds, and within every array slot present in the
document the i-th emitted record is the encoding of the entity decoded
from the i-th raw record: the decoded list, the encoded list and the
raw list all have the same length and correspond pointwise in order. -/
theorem marshal_unmarshal_preserves_slot_order
    (cfg cfg' : Config) (k : String) (v : Value) (rs : List Value)
    (hnd : (cfg.map Prod.fst).Nodup)
    (h : unmarshalSt cfg = (none, cfg'))
    (hk : k ∈ slotKeys)
    (hv : lookupK cfg k = some v)
    (hrs : iterElems v = .ok rs) :
    ∃ es js m,
      mapME (decodeRecord k) rs = .ok es ∧
      es.length = rs.length ∧
      (∀ i (hi : i < rs.length) (hi' : i < es.length),
        decodeRecord k (rs.get ⟨i, hi⟩) = .ok (es.get ⟨i, hi'⟩)) ∧
      marshalF cfg' = .ok m ∧
      encodeSlotValue k (.arr es) = .ok (.arr js) ∧
      lookupK m k = some (.arr js) ∧
      js.length = rs.length := by
  have hgo := unmarshalSt_ok_go cfg cfg' h
  obtain ⟨es, hes, hnone, hdec⟩ :=
    unmarshalGo_ok_slot slotKeys cfg cfg' k hgo slotKeys_nodup hk
  obtain ⟨rs', hrs', hmm⟩ := hdec v hv
  have hrseq : rs' = rs := by
    rw [hrs] at hrs'
    exact (Except.ok.inj hrs').symm
  subst hrseq
  have hall := mapME_decode_all_entity _ _ _ hmm
  have hlen := mapME_ok_length _ _ _ hmm
  obtain ⟨m, hmok⟩ := unmarshal_then_marshal_total cfg cfg' hnd hgo
  obtain ⟨js, hjsenc, hjslen⟩ := encodeSlotValue_slot k es hk hall
  obtain ⟨w, hw1, hw2⟩ := marshalF_ok_lookup cfg' m hmok k (.arr es) hes
  have hweq : w = .arr js := by
    rw [hjsenc] at hw1
    exact (Except.ok.inj hw1).symm
  subst hweq
  exact ⟨es, js, m, hmm, hlen,
    fun i hi hi' => mapME_ok_get _ _ _ hmm i hi hi',
    hmok, hjsenc, hw2, by rw [hjslen, hlen]⟩

/-- Witness for C5 on a document whose fragment-root slot holds two
records, exercising order preservation of a two-element slot. -/
theorem marshal_unmarshal_preserves_slot_order_witness :
    ∃ es js m,
      mapME (decodeRecord "fragment-root")
        [.obj [("namespace-uri", .str "u1"), ("localname", .str "a")],
         .obj [("namespace-uri", .str "u2"), ("localname", .str "b")]] =
        .ok es ∧
      es.length =
        [Value.obj [("namespace-uri", .str "u1"), ("localname", .str "a")],
         Value.obj [("namespace-uri", .str "u2"),
           ("localname", .str "b")]].length ∧
      (∀ i (hi : i < [Value.obj [("namespace-uri", .str "u1"),
            ("localname", .str "a")],
          Value.obj [("namespace-uri", .str "u2"),
            ("localname", .str "b")]].length) (hi' : i < es.length),
        decodeRecord "fragment-root"
          ([Value.obj [("namespace-uri", .str "u1"),
              ("localname", .str "a")],
            Value.obj [("namespace-uri", .str "u2"),
              ("localname", .str "b")]].get ⟨i, hi⟩) =
          .ok (es.get ⟨i, hi'⟩)) ∧
      marshalF (unmarshalSt
        [("database-name", .str "db"),
         ("fragment-root", .arr
           [.obj [("namespace-uri", .str "u1"), ("localname", .str "a")],
            .obj [("namespace-uri", .str "u2"),
              ("localname", .str "b")]])]).2 = .ok m ∧
      encodeSlotValue "fragment-root" (.arr es) = .ok (.arr js) ∧
      lookupK m "fragment-root" = some (.arr js) ∧
      js.length =
        [Value.obj [("namespace-uri", .str "u1"), ("localname", .str "a")],
         Value.obj [("namespace-uri", .str "u2"),
           ("localname", .str "b")]].length :=
  marshal_unmarshal_preserves_slot_order
    [("database-name", .str "db"),
     ("fragment-root", .arr
       [.obj [("namespace-uri", .str "u1"), ("localname", .str "a")],
        .obj [("namespace-uri", .str "u2"), ("localname", .str "b")]])]
    _ "fragment-root" _ _ (by decide) rfl (by decide) rfl rfl

/-- The minimal wire document: a database name and nothing else. -/
def docNoSlots : Config := [("database-name", .str "x")]

/-- The caller's dict after unmarshal of the minimal document: every
slot key appended, bound to the empty list. -/
def cfgNoSlotsAfter : Config :=
  docNoSlots ++ slotKeys.map (fun k => (k, .arr []))

/-- C6 counterexample: after unmarshal of a wire document without the
range-element-index key, the getter returns the empty list, not the
absent sentinel None, so absence is not preserved through unmarshal and
empty and absent are conflated. -/
theorem getter_after_unmarshal_not_sentinel :
    Database.unmarshal docNoSlots = .ok ⟨.str "x", cfgNoSlotsAfter⟩ ∧
    (Database.mk (.str "x") cfgNoSlotsAfter).element_range_indexes =
      some (.arr []) ∧
    (Database.mk (.str "x")
      cfgNoSlotsAfter).element_range_indexes.isSome = true ∧
    (Database.mk (.str "x") cfgNoSlotsAfter).fields = .ok (some []) :=
  ⟨rfl, rfl, rfl, rfl⟩

/-- C6 amended: the getters return the absent sentinel exactly when the
slot key is absent from the config, which holds on a fresh Database; but
a successful unmarshal installs every slot key, so afterwards the getter
returns a list (the empty list when the input document lacked the key),
never the sentinel. -/
theorem getters_absent_vs_empty (n : String) (nm : Value)
    (cfg cfg' : Config) (h : unmarshalSt cfg = (none, cfg')) :
    (Database.fresh n).element_range_indexes = none ∧
    (Database.fresh n).fields = .ok none ∧
    ∃ es, (Database.mk nm cfg').element_range_indexes = some (.arr es) ∧
      (lookupK cfg "range-element-index" = none → es = []) := by
  refine ⟨rfl, rfl, ?_⟩
  have hgo := unmarshalSt_ok_go cfg cfg' h
  obtain ⟨es, hes, hnone, _⟩ :=
    unmarshalGo_ok_slot slotKeys cfg cfg' "range-element-index" hgo
      slotKeys_nodup (by decide)
  exact ⟨es, hes, hnone⟩

/-- Witness for the amended C6 on the minimal document. -/
theorem getters_absent_vs_empty_witness :
    (Database.fresh "temp").element_range_indexes = none ∧
    (Database.fresh "temp").fields = .ok none ∧
    ∃ es, (Database.mk (.str "x")
        (unmarshalSt docNoSlots).2).element_range_indexes =
        some (.arr es) ∧
      (lookupK docNoSlots "range-element-index" = none → es = []) :=
  getters_absent_vs_empty "temp" (.str "x") docNoSlots
    (unmarshalSt docNoSlots).2 rfl

/-- C7: field-record discrimination follows the declared precedence:
presence of the field-path key selects PathField whatever the
field-name value is; otherwise an empty field-name selects the
WordQuery sentinel; otherwise a RootField.  The field-name key itself
is always required (it is read first). -/
theorem field_discrimination_precedence
    (l : Config) (nv fpv : Value) (items ps : List Value)
    (hname : lookupK l "field-name" = some nv) :
    (lookupK l "field-path" = some fpv →
      iterElems fpv = .ok items →
      mapME decodeFieldPath items = .ok ps →
      decodeRecord "field" (.obj l) = .ok (.entity "path-field" l)) ∧
    (lookupK l "field-path" = none → nv.eqStr "" = true →
      decodeRecord "field" (.obj l) = .ok (.entity "word-query" l)) ∧
    (lookupK l "field-path" = none → nv.eqStr "" = false →
      decodeRecord "field" (.obj l) = .ok (.entity "root-field" l)) := by
  have hcore : decodeRecordCore "field" (.obj l) =
      decodeFieldRecord (.obj l) := rfl
  refine ⟨?_, ?_, ?_⟩
  · intro hfp hit hps
    simp only [decodeRecord, hcore, decodeFieldRecord, getK, hname, hfp,
      memTest, bind, Except.bind, Option.isSome_some, if_true, hit, hps]
    rfl
  · intro hfp hempty
    simp only [decodeRecord, hcore, decodeFieldRecord, getK, hname, hfp,
      memTest, bind, Except.bind, Option.isSome_none, Option.getD_some,
      hempty]
    rfl
  · intro hfp hempty
    simp only [decodeRecord, hcore, decodeFieldRecord, getK, hname, hfp,
      memTest, bind, Except.bind, Option.isSome_none, Option.getD_some,
      hempty]
    rfl

/-- Witness for C7: a path field whose name is empty (precedence over
the sentinel check), a word query, and a root field. -/
theorem field_discrimination_precedence_witness :
    decodeRecord "field" (.obj
      [("field-name", .str ""),
       ("field-path", .arr [.obj [("path", .str "/a"),
         ("weight", .intV 1)]])]) =
      .ok (.entity "path-field"
        [("field-name", .str ""),
         ("field-path", .arr [.obj [("path", .str "/a"),
           ("weight", .intV 1)]])]) ∧
    decodeRecord "field" (.obj [("field-name", .str "")]) =
      .ok (.entity "word-query" [("field-name", .str "")]) ∧
    decodeRecord "field" (.obj [("field-name", .str "invoice")]) =
      .ok (.entity "root-field" [("field-name", .str "invoice")]) :=
  ⟨(field_discrimination_precedence
      [("field-name", .str ""),
       ("field-path", .arr [.obj [("path", .str "/a"),
         ("weight", .intV 1)]])]
      (.str "") (.arr [.obj [("path", .str "/a"), ("weight", .intV 1)]])
      [.obj [("path", .str "/a"), ("weight", .intV 1)]]
      [.obj [("path", .str "/a"), ("weight", .intV 1)]]
      rfl).1 rfl rfl rfl,
   (field_discrimination_precedence [("field-name", .str "")]
      (.str "") .null [] [] rfl).2.1 rfl rfl,
   (field_discrimination_precedence [("field-name", .str "invoice")]
      (.str "invoice") .null [] [] rfl).2.2 rfl rfl⟩

/-- C8: adding a field entity whose non-empty name collides with one
already in the field slot fails with the duplicate-key error and the
slot is not modified: the first add succeeds and appends, the second
returns the error and produces no updated document, so the field list
observed by the caller still has its previous length. -/
theorem add_field_rejects_duplicate_name (db : Database)
    (t1 t2 : String) (fs1 fs2 : Config) (nm : String)
    (ht1 : fieldTags.contains t1 = true)
    (ht2 : fieldTags.contains t2 = true)
    (hn1 : fieldNameE (.entity t1 fs1) = .ok (some (.str nm)))
    (hn2 : fieldNameE (.entity t2 fs2) = .ok (some (.str nm)))
    (_hne : nm ≠ "")
    (hno : ∀ e ∈ fieldSlotList db.config,
      sameFieldName e (.entity t1 fs1) = false) :
    ∃ db1 : Database,
      db.add_field (.entity t1 fs1) = .ok db1 ∧
      fieldSlotList db1.config =
        fieldSlotList db.config ++ [.entity t1 fs1] ∧
      (fieldSlotList db1.config).length =
        (fieldSlotList db.config).length + 1 ∧
      db1.add_field (.entity t2 fs2) = .error (.duplicateKey "field") := by
  have hassert1 : assert_type (.entity t1 fs1) fieldTags =
      .ok (.entity t1 fs1) := by
    simp only [assert_type, ht1]
    rfl
  have hassert2 : assert_type (.entity t2 fs2) fieldTags =
      .ok (.entity t2 fs2) := by
    simp only [assert_type, ht2]
    rfl
  have hanyf : (fieldSlotList db.config).any
      (fun e => sameFieldName e (.entity t1 fs1)) = false := by
    rw [List.any_eq_false]
    intro x hx
    rw [hno x hx]
    simp
  have hadd1 : add_to_property_list_field db.config (.entity t1 fs1) =
      .ok (setKey db.config "field"
        (.arr (fieldSlotList db.config ++ [.entity t1 fs1]))) := by
    simp only [add_to_property_list_field, hassert1, bind, Except.bind,
      hanyf]
    rfl
  have hfs1 : fieldSlotList (setKey db.config "field"
      (.arr (fieldSlotList db.config ++ [.entity t1 fs1]))) =
      fieldSlotList db.config ++ [.entity t1 fs1] := by
    unfold fieldSlotList
    rw [lookupK_setKey_self]
  have hsame : sameFieldName (.entity t1 fs1) (.entity t2 fs2) = true := by
    simp [sameFieldName, hn1, hn2]
  refine ⟨⟨db.name, setKey db.config "field"
      (.arr (fieldSlotList db.config ++ [.entity t1 fs1]))⟩,
    ?_, ?_, ?_, ?_⟩
  · simp only [Database.add_field, hassert1, bind, Except.bind, hn1, hadd1]
    rfl
  · exact hfs1
  · rw [hfs1]; simp
  · simp only [Database.add_field, hassert2, bind, Except.bind, hn2]
    simp only [add_to_property_list_field, hassert2, bind, Except.bind]
    have hany2 : (fieldSlotList (setKey db.config "field"
        (.arr (fieldSlotList db.config ++ [.entity t1 fs1])))).any
        (fun e => sameFieldName e (.entity t2 fs2)) = true := by
      rw [hfs1]
      rw [List.any_eq_true]
      exact ⟨.entity t1 fs1, by simp, hsame⟩
    rw [hany2]
    rfl

/-- Witness for C8 on a fresh Database and two root fields both named
invoice. -/
theorem add_field_rejects_duplicate_name_witness :
    ∃ db1 : Database,
      (Database.fresh "w8").add_field
        (.entity "root-field" [("field-name", .str "invoice")]) =
        .ok db1 ∧
      fieldSlotList db1.config =
        fieldSlotList (Database.fresh "w8").config ++
          [.entity "root-field" [("field-name", .str "invoice")]] ∧
      (fieldSlotList db1.config).length =
        (fieldSlotList (Database.fresh "w8").config).length + 1 ∧
      db1.add_field (.entity "root-field"
        [("field-name", .str "invoice"), ("include-root", .str "true")]) =
        .error (.duplicateKey "field") :=
  add_field_rejects_duplicate_name (Database.fresh "w8")
    "root-field" "root-field"
    [("field-name", .str "invoice")]
    [("field-name", .str "invoice"), ("include-root", .str "true")]
    "invoice" rfl rfl rfl rfl (by decide)
    (fun e he => absurd he (List.not_mem_nil e))

/-- C9: Database.unmarshal is not pure over its argument: the returned
Database's config equals the caller's dict as the call leaves it (the
source stores the dict itself, not a copy), and in it every known slot
key is rebound to a list holding only decoded entity objects, the empty
list when the key was absent, so the caller's raw records are gone. -/
theorem unmarshal_installs_and_converts_caller_config
    (cfg : Config) (d : Database)
    (h : Database.unmarshal cfg = .ok d) :
    unmarshalSt cfg = (none, d.config) ∧
    ∀ k ∈ slotKeys, ∃ es : List Value,
      lookupK d.config k = some (.arr es) ∧
      es.all Value.isEntityV = true ∧
      (lookupK cfg k = none → es = []) := by
  unfold Database.unmarshal at h
  cases h1 : lookupK cfg "database-name" with
  | none => rw [h1] at h; cases h
  | some n =>
      rw [h1] at h
      cases h2 : unmarshalGo slotKeys cfg with
      | mk oe cfg2 =>
          rw [h2] at h
          cases oe with
          | some e => cases h
          | none =>
              cases h
              constructor
              · unfold unmarshalSt
                rw [h1]
                exact h2
              · intro k hk
                obtain ⟨es, hes, hnone, hdec⟩ :=
                  unmarshalGo_ok_slot slotKeys cfg cfg2 k h2
                    slotKeys_nodup hk
                refine ⟨es, hes, ?_, hnone⟩
                cases hlk : lookupK cfg k with
                | none => rw [hnone hlk]; rfl
                | some w =>
                    obtain ⟨rs, _, hmm⟩ := hdec w hlk
                    exact mapME_decode_all_entity _ _ _ hmm

/-- Witness for C9 on a document holding one fragment-parent record:
after the call the caller's dict binds the slot to an entity list. -/
theorem unmarshal_installs_and_converts_caller_config_witness :
    unmarshalSt
      [("database-name", .str "w9"),
       ("fragment-parent", .arr
         [.obj [("namespace-uri", .str "u"), ("localname", .str "p")]])] =
      (none, (unmarshalSt
        [("database-name", .str "w9"),
         ("fragment-parent", .arr
           [.obj [("namespace-uri", .str "u"),
             ("localname", .str "p")]])]).2) ∧
    (∃ es : List Value,
      lookupK (unmarshalSt
        [("database-name", .str "w9"),
         ("fragment-parent", .arr
           [.obj [("namespace-uri", .str "u"),
             ("localname", .str "p")]])]).2 "fragment-parent" =
        some (.arr es) ∧
      es.all Value.isEntityV = true ∧
      (lookupK
        [("database-name", .str "w9"),
         ("fragment-parent", .arr
           [.obj [("namespace-uri", .str "u"),
             ("localname", .str "p")]])] "fragment-parent" = none →
        es = [])) :=
  ⟨(unmarshal_installs_and_converts_caller_config
      [("database-name", .str "w9"),
       ("fragment-parent", .arr
         [.obj [("namespace-uri", .str "u"), ("localname", .str "p")]])]
      ⟨.str "w9", (unmarshalSt
        [("database-name", .str "w9"),
         ("fragment-parent", .arr
           [.obj [("namespace-uri", .str "u"),
             ("localname", .str "p")]])]).2⟩ rfl).1,
   (unmarshal_installs_and_converts_caller_config
      [("database-name", .str "w9"),
       ("fragment-parent", .arr
         [.obj [("namespace-uri", .str "u"), ("localname", .str "p")]])]
      ⟨.str "w9", (unmarshalSt
        [("database-name", .str "w9"),
         ("fragment-parent", .arr
           [.obj [("namespace-uri", .str "u"),
             ("localname", .str "p")]])]).2⟩ rfl).2
     "fragment-parent" (by decide)⟩

/-- C10: after a successful unmarshal every one of the 21 known
array-valued slot keys is present in the config, bound to a list (the
empty list when the input omitted the key), and marshal of that config
succeeds and emits every one of these keys, with an empty array exactly
where the input omitted the slot. -/
theorem unmarshal_slots_present_and_marshal_emits
    (cfg cfg' : Config) (hnd : (cfg.map Prod.fst).Nodup)
    (h : unmarshalSt cfg = (none, cfg')) :
    ∃ m, marshalF cfg' = .ok m ∧
      ∀ k ∈ slotKeys, ∃ (es js : List Value),
        lookupK cfg' k = some (.arr es) ∧
        lookupK m k = some (.arr js) ∧
        js.length = es.length ∧
        (lookupK cfg k = none → es = [] ∧ js = []) := by
  have hgo := unmarshalSt_ok_go cfg cfg' h
  obtain ⟨m, hmok⟩ := unmarshal_then_marshal_total cfg cfg' hnd hgo
  refine ⟨m, hmok, ?_⟩
  intro k hk
  obtain ⟨es, hes, hnone, hdec⟩ :=
    unmarshalGo_ok_slot slotKeys cfg cfg' k hgo slotKeys_nodup hk
  have hall : es.all Value.isEntityV = true := by
    cases hlk : lookupK cfg k with
    | none => rw [hnone hlk]; rfl
    | some w =>
        obtain ⟨rs, _, hmm⟩ := hdec w hlk
        exact mapME_decode_all_entity _ _ _ hmm
  obtain ⟨js, hjsenc, hjslen⟩ := encodeSlotValue_slot k es hk hall
  obtain ⟨w, hw1, hw2⟩ := marshalF_ok_lookup cfg' m hmok k (.arr es) hes
  have hweq : w = .arr js := by
    rw [hjsenc] at hw1
    exact (Except.ok.inj hw1).symm
  subst hweq
  refine ⟨es, js, hes, hw2, hjslen, ?_⟩
  intro hlk
  have he : es = [] := hnone hlk
  subst he
  exact ⟨rfl, List.eq_nil_of_length_eq_zero hjslen⟩

/-- Witness for C10 on a document with one default-ruleset record and
every other slot absent. -/
theorem unmarshal_slots_present_and_marshal_emits_witness :
    ∃ m, marshalF (unmarshalSt
        [("database-name", .str "w10"),
         ("default-ruleset", .arr
           [.obj [("location", .str "r.xml")]])]).2 = .ok m ∧
      ∀ k ∈ slotKeys, ∃ (es js : List Value),
        lookupK (unmarshalSt
          [("database-name", .str "w10"),
           ("default-ruleset", .arr
             [.obj [("location", .str "r.xml")]])]).2 k =
          some (.arr es) ∧
        lookupK m k = some (.arr js) ∧
        js.length = es.length ∧
        (lookupK
          [("database-name", .str "w10"),
           ("default-ruleset", .arr
             [.obj [("location", .str "r.xml")]])] k = none →
          es = [] ∧ js = []) :=
  unmarshal_slots_present_and_marshal_emits
    [("database-name", .str "w10"),
     ("default-ruleset", .arr [.obj [("location", .str "r.xml")]])]
    _ (by decide) rfl

end MLDB
